import Mathlib

/-!
A verification development for the configuration layer of a release-packaging
pipeline (`src/config.rs`).  The Rust data model and operations are shallowly
embedded: structs become Lean structures, `u8` fields become `Nat`, `PathBuf`
and `String` become `String`, fallible operations return `Except SomeError`,
and the process environment / file system consulted by `Config::validate` is
abstracted into an explicit `FsEnv` record passed to the embedded functions.
-/

set_option maxHeartbeats 1000000

deriving instance DecidableEq for Except

/-- The generic string-keyed error type (`crate::utils::errors::SomeError`):
a single error kind carrying a free-text message. -/
structure SomeError where
  msg : String
deriving DecidableEq, Repr

/-! ## Character and list helpers used by the version parser model -/

/-- Split a character list at the first occurrence of `sep`:
returns the part before the first `sep` and, when `sep` occurs,
the part after it.  This models both Rust's
`s.split("-").next().unwrap()` (the `.1` component) and the
"split the string on the first hyphen" step of the version parser. -/
def splitFirst (sep : Char) : List Char → List Char × Option (List Char)
  | [] => ([], none)
  | c :: cs =>
    if c = sep then ([], some cs)
    else
      let r := splitFirst sep cs
      (c :: r.1, r.2)

/-- Split a character list on every occurrence of `sep` (like Rust's
`str::split` with a char pattern): always returns at least one part. -/
def splitOnChar (sep : Char) : List Char → List (List Char)
  | [] => [[]]
  | c :: cs =>
    if c = sep then [] :: splitOnChar sep cs
    else
      match splitOnChar sep cs with
      | [] => [[c]]
      | h :: t => (c :: h) :: t

/-- Numeric value of a decimal digit character, `none` for non-digits. -/
def digitVal (c : Char) : Option Nat :=
  if c.isDigit then some (c.toNat - 48) else none

/-- Accumulating decimal parser over a run of characters; fails on the
first non-digit. -/
def parseDigitsAux : List Char → Nat → Option Nat
  | [], acc => some acc
  | c :: cs, acc =>
    match digitVal c with
    | some d => parseDigitsAux cs (acc * 10 + d)
    | none => none

/-- Parse a non-empty all-digit character list as a decimal natural. -/
def parseNatDigits : List Char → Option Nat
  | [] => none
  | l => parseDigitsAux l 0

/-- The decimal digit character for `d < 10` (clamps at `9` above). -/
def digitChar (d : Nat) : Char :=
  match d with
  | 0 => '0' | 1 => '1' | 2 => '2' | 3 => '3' | 4 => '4'
  | 5 => '5' | 6 => '6' | 7 => '7' | 8 => '8' | _ => '9'

/-- Standard decimal rendering of a natural number (most significant digit
first), used to describe well-formed version strings in theorem statements. -/
def renderNat (n : Nat) : List Char :=
  if _h : n < 10 then [digitChar n]
  else renderNat (n / 10) ++ [digitChar (n % 10)]
  termination_by n
  decreasing_by exact Nat.div_lt_self (by omega) (by omega)

/-! ## Version parser -/

/-- The error signalled for malformed version strings. -/
def invalidVersionFormat : SomeError := ⟨"InvalidVersionFormat"⟩

/-- Modelled from the spec: `misc::parse_version` (in `crate::utils::misc`,
whose source is not under `src/`).  Contract (spec 4.1): split the string on
the first hyphen; the left part is a dot-delimited triple of unsigned
integers; the right part, if present, identifies a qualifier keyword
(`beta` or `rc`) and its numeric suffix.  Output: a five-tuple
(major, minor, patch, beta, rc).  Failure: `InvalidVersionFormat` when the
numeric triple cannot be parsed, or when a qualifier suffix exists but its
keyword does not match the two recognized forms. -/
def parse_version (s : String) : Except SomeError (Nat × Nat × Nat × Nat × Nat) :=
  let parts := splitFirst '-' s.data
  match splitOnChar '.' parts.1 with
  | [a, b, c] =>
    match parseNatDigits a, parseNatDigits b, parseNatDigits c with
    | some major, some minor, some patch =>
      match parts.2 with
      | none => .ok (major, minor, patch, 0, 0)
      | some q =>
        if q.take 4 = "beta".data then
          match parseNatDigits (q.drop 4) with
          | some n => .ok (major, minor, patch, n, 0)
          | none => .error invalidVersionFormat
        else if q.take 2 = "rc".data then
          match parseNatDigits (q.drop 2) with
          | some n => .ok (major, minor, patch, 0, n)
          | none => .error invalidVersionFormat
        else .error invalidVersionFormat
    | _, _, _ => .error invalidVersionFormat
  | _ => .error invalidVersionFormat

/-! ## Configuration data model (translated from the structs in `config.rs`) -/

/-- `ObsVersion`: normalized version string plus numeric fields. -/
structure ObsVersion where
  version_str : String := ""
  version_major : Nat := 0
  version_minor : Nat := 0
  version_patch : Nat := 0
  beta : Nat := 0
  rc : Nat := 0
deriving DecidableEq, Repr

/-- `EnvOptions`: branch, directories and tool paths. -/
structure EnvOptions where
  branch : String := ""
  input_dir : String := ""
  output_dir : String := ""
  previous_dir : String := ""
  sevenzip_path : String := ""
  makensis_path : String := ""
  pandoc_path : String := ""
  pdbcopy_path : String := ""
deriving DecidableEq, Repr

/-- `CopyOptions`. -/
structure CopyOptions where
  excludes : List String := []
  overrides : List (String × String) := []
deriving DecidableEq, Repr

/-- `CodesignOptions`. -/
structure CodesignOptions where
  skip_sign : Bool := false
  sign_name : String := ""
  sign_digest : String := ""
  sign_ts_serv : String := ""
  sign_exts : List String := []
deriving DecidableEq, Repr

/-- `StripPDBOptions`. -/
structure StripPDBOptions where
  exclude : List String := []
deriving DecidableEq, Repr

/-- `PreparationOptions`. -/
structure PreparationOptions where
  copy : CopyOptions := {}
  codesign : CodesignOptions := {}
  strip_pdbs : StripPDBOptions := {}
deriving DecidableEq, Repr

/-- `ManifestPackageOptions`. -/
structure ManifestPackageOptions where
  name : String := ""
  include_files : Option (List String) := none
deriving DecidableEq, Repr

/-- `GenerationOptions`. -/
structure GenerationOptions where
  removed_files : List String := []
  packages : List ManifestPackageOptions := []
deriving DecidableEq, Repr

/-- `InstallerOptions`. -/
structure InstallerOptions where
  nsis_script : String := ""
  name : String := ""
  skip_sign : Bool := false
deriving DecidableEq, Repr

/-- `ZipOptions`. -/
structure ZipOptions where
  name : String := ""
  pdb_name : String := ""
  skip_for_prerelease : Bool := false
deriving DecidableEq, Repr

/-- `UpdaterOptions`. -/
structure UpdaterOptions where
  skip_sign : Bool := false
  notes_files : String := ""
  updater_path : String := ""
  private_key : String := ""
  vc_redist_path : String := ""
  skip_for_prerelease : Bool := false
deriving DecidableEq, Repr

/-- `PackageOptions`. -/
structure PackageOptions where
  installer : InstallerOptions := {}
  zip : ZipOptions := {}
  updater : UpdaterOptions := {}
deriving DecidableEq, Repr

/-- `PostOptions`. -/
structure PostOptions where
  move_to_old : Bool := false
deriving DecidableEq, Repr

/-- `Config`: the aggregate root. -/
structure Config where
  env : EnvOptions := {}
  prepare : PreparationOptions := {}
  generate : GenerationOptions := {}
  package : PackageOptions := {}
  post : PostOptions := {}
  obs_version : ObsVersion := {}
deriving DecidableEq, Repr

/-- The value produced by the derived `Default` implementation of `Config`
(`#[derive(Default)]` uses each field type's `Default`; the serde
`default = "get_default_branch"` attribute on `EnvOptions.branch` affects
deserialization only, not `Default`, so here `branch` is the empty string). -/
def Config.defaultValue : Config := {}

/-- `MainArgs`: the clap-derived command-line surface. -/
structure MainArgs where
  config : String
  version : String
  beta : Option Nat := none
  rc : Option Nat := none
  branch : Option String := none
  new : Option String := none
  old : Option String := none
  out : Option String := none
  note_file : Option String := none
  private_key : Option String := none
  skip_installer : Bool := false
  skip_patches : Bool := false
  skip_codesigning : Bool := false
  skip_manifest_signing : Bool := false
  clear_output : Bool := false
deriving DecidableEq, Repr

/-! ## `Config::set_version` and `Config::apply_args` -/

/-- `Config::set_version`: parse the version string, record everything before
the first hyphen as `version_str`, the parsed triple as major/minor/patch,
and keep the parsed beta/rc unless a nonzero `beta_num`/`rc_num` is given.
The Rust function panics inside `misc::parse_version` on a malformed string;
the embedding surfaces that as `Except.error`. -/
def set_version (cfg : Config) (version_string : String) (beta_num rc_num : Nat) :
    Except SomeError Config :=
  match parse_version version_string with
  | .error e => .error e
  | .ok ver_parsed =>
    .ok { cfg with obs_version := {
      version_str := String.mk (splitFirst '-' version_string.data).1,
      version_major := ver_parsed.1,
      version_minor := ver_parsed.2.1,
      version_patch := ver_parsed.2.2.1,
      beta := if beta_num > 0 then beta_num else ver_parsed.2.2.2.1,
      rc := if rc_num > 0 then rc_num else ver_parsed.2.2.2.2 } }

/-- `Config::apply_args`: merge CLI argument values onto the loaded
configuration (line-by-line translation of `config.rs` lines 212-242). -/
def apply_args (cfg : Config) (args : MainArgs) : Except SomeError Config :=
  match set_version cfg args.version (args.beta.getD 0) (args.rc.getD 0) with
  | .error e => .error e
  | .ok cfg0 =>
    let cfg1 := match args.new with
      | some input => { cfg0 with env := { cfg0.env with input_dir := input } }
      | none => cfg0
    let cfg2 := match args.out with
      | some output => { cfg1 with env := { cfg1.env with output_dir := output } }
      | none => cfg1
    let cfg3 := match args.old with
      | some previous => { cfg2 with env := { cfg2.env with previous_dir := previous } }
      | none => cfg2
    let cfg4 := match args.branch with
      | some branch => { cfg3 with env := { cfg3.env with branch := branch } }
      | none => cfg3
    let cfg5 := match args.beta with
      | some beta => { cfg4 with obs_version := { cfg4.obs_version with beta := beta } }
      | none => cfg4
    let cfg6 := match args.rc with
      | some rc => { cfg5 with obs_version := { cfg5.obs_version with rc := rc } }
      | none => cfg5
    .ok { cfg6 with
      prepare := { cfg6.prepare with
        codesign := { cfg6.prepare.codesign with skip_sign := args.skip_codesigning } },
      package := { cfg6.package with
        installer := { cfg6.package.installer with skip_sign := args.skip_codesigning },
        updater := { cfg6.package.updater with skip_sign := !args.skip_manifest_signing } } }

/-! ## `Config::validate` and its file-system environment

`Config::validate` consults the process environment (`env::var`) and the file
system (`fs::metadata`, `fs::canonicalize`, and PATH lookup inside
`misc::check_binary_path`).  These external effects are abstracted into an
explicit `FsEnv` record so `validate` becomes a pure function of the
configuration and the environment. -/

/-- Abstraction of the process environment and file system consulted by
`Config::validate`:
* `resolveBinary p`: the resolved absolute path of tool path `p`
  (configured path resolution, or PATH lookup when `p` is empty), or `none`
  when the tool cannot be resolved;
* `updater_private_key_env`: the value of the `UPDATER_PRIVATE_KEY`
  environment variable, when set;
* `metadata p`: result of `fs::metadata(p)` (`.error` carries the message);
* `canonicalize p`: result of `fs::canonicalize(p)`. -/
structure FsEnv where
  resolveBinary : String → Option String
  updater_private_key_env : Option String
  metadata : String → Except String Unit
  canonicalize : String → Except String String

/-- Modelled from the spec: `misc::check_binary_path` (in
`crate::utils::misc`, whose source is not under `src/`).  Spec 4.4 step 1:
resolve the tool path — if the configured value is empty, search the
process's executable search path; if found or explicitly configured, rewrite
the field to the resolved absolute path; if not resolvable, signal
`BinaryNotFound` naming the tool.  Resolution itself is supplied by the
abstract environment. -/
def check_binary_path (fs : FsEnv) (path : String) : Except SomeError String :=
  match fs.resolveBinary path with
  | some res => .ok res
  | none => .error ⟨"BinaryNotFound: " ++ path⟩

/-- Early-return sequencing of validation stages: a stage returns the
(possibly mutated) configuration together with `Ok` or the first error; on
error the later stage is not run (Rust's `?` / `return Err`). -/
def vstep (r : Config × Except SomeError Unit)
    (next : Config → Config × Except SomeError Unit) : Config × Except SomeError Unit :=
  match r with
  | (cfg, .ok _) => next cfg
  | (cfg, .error e) => (cfg, .error e)

/-- The binary-path stage of `Config::validate` (lines 246-251): check and
rewrite `pdbcopy_path`, `makensis_path`, `sevenzip_path`, `pandoc_path` in
that order, stopping at the first failure. -/
def validate_binaries (fs : FsEnv) (cfg : Config) : Config × Except SomeError Unit :=
  match check_binary_path fs cfg.env.pdbcopy_path with
  | .error e => (cfg, .error e)
  | .ok p1 =>
    let cfg := { cfg with env := { cfg.env with pdbcopy_path := p1 } }
    match check_binary_path fs cfg.env.makensis_path with
    | .error e => (cfg, .error e)
    | .ok p2 =>
      let cfg := { cfg with env := { cfg.env with makensis_path := p2 } }
      match check_binary_path fs cfg.env.sevenzip_path with
      | .error e => (cfg, .error e)
      | .ok p3 =>
        let cfg := { cfg with env := { cfg.env with sevenzip_path := p3 } }
        match check_binary_path fs cfg.env.pandoc_path with
        | .error e => (cfg, .error e)
        | .ok p4 => ({ cfg with env := { cfg.env with pandoc_path := p4 } }, .ok ())

/-- The signing-key stage of `Config::validate` (lines 253-259): when
manifest signing is not skipped, a set `UPDATER_PRIVATE_KEY` environment
variable suffices; otherwise the configured private-key file must exist. -/
def validate_signing (fs : FsEnv) (cfg : Config) : Config × Except SomeError Unit :=
  if cfg.package.updater.skip_sign then (cfg, .ok ())
  else
    match fs.updater_private_key_env with
    | some _ => (cfg, .ok ())
    | none =>
      match fs.metadata cfg.package.updater.private_key with
      | .ok _ => (cfg, .ok ())
      | .error e => (cfg, .error ⟨"Private key not found: " ++ e⟩)

/-- The directory stage of `Config::validate` (lines 265-276): canonicalize
the input directory, then the previous directory; the output directory is
never touched. -/
def validate_paths (fs : FsEnv) (cfg : Config) : Config × Except SomeError Unit :=
  match fs.canonicalize cfg.env.input_dir with
  | .error e => (cfg, .error ⟨"Input dir error: " ++ e⟩)
  | .ok res =>
    let cfg := { cfg with env := { cfg.env with input_dir := res } }
    match fs.canonicalize cfg.env.previous_dir with
    | .error e => (cfg, .error ⟨"Previous dir error: " ++ e⟩)
    | .ok res2 => ({ cfg with env := { cfg.env with previous_dir := res2 } }, .ok ())

/-- `Config::validate` (lines 244-279): binary checks (when enabled), then
the signing-key check, then the codesign-parameter placeholder (lines
261-263, a no-op `// ToDo` in the source), then the directory checks (when
enabled).  The configuration component of the result carries the mutations
performed before any failure, mirroring `&mut self`. -/
def validate (fs : FsEnv) (check_binaries check_paths : Bool) (cfg : Config) :
    Config × Except SomeError Unit :=
  vstep (if check_binaries then validate_binaries fs cfg else (cfg, .ok ()))
    (fun cfg1 =>
      vstep (validate_signing fs cfg1)
        (fun cfg2 =>
          -- codesign-parameter check: `if !self.prepare.codesign.skip_sign { /* ToDo */ }`
          if check_paths then validate_paths fs cfg2 else (cfg2, .ok ())))

/-! Spec-side description of the check sequence (spec 4.4): the enabled
checks in their fixed order, each evaluated on the configuration as it was
before `validate` ran (no check reads a field an earlier check writes). -/

/-- The error a single binary check would produce, if any. -/
def binCheckError (fs : FsEnv) (path : String) : Option SomeError :=
  match check_binary_path fs path with
  | .ok _ => none
  | .error e => some e

/-- The error the signing-key check would produce, if any. -/
def signingCheckError (fs : FsEnv) (cfg : Config) : Option SomeError :=
  if cfg.package.updater.skip_sign then none
  else
    match fs.updater_private_key_env with
    | some _ => none
    | none =>
      match fs.metadata cfg.package.updater.private_key with
      | .ok _ => none
      | .error e => some ⟨"Private key not found: " ++ e⟩

/-- The error a directory canonicalization check would produce, if any. -/
def dirCheckError (fs : FsEnv) (label : String) (path : String) : Option SomeError :=
  match fs.canonicalize path with
  | .ok _ => none
  | .error e => some ⟨label ++ e⟩

/-- The spec's ordered list of enabled checks, each reported as `none`
(success) or `some e` (the error it raises): the four binary checks
(when enabled), the signing-key check, the codesign placeholder (never
fails), and the two directory checks (when enabled). -/
def validate_check_errors (fs : FsEnv) (check_binaries check_paths : Bool)
    (cfg : Config) : List (Option SomeError) :=
  (if check_binaries then
    [binCheckError fs cfg.env.pdbcopy_path,
     binCheckError fs cfg.env.makensis_path,
     binCheckError fs cfg.env.sevenzip_path,
     binCheckError fs cfg.env.pandoc_path]
   else [])
  ++ [signingCheckError fs cfg]
  ++ (if check_paths then
    [dirCheckError fs "Input dir error: " cfg.env.input_dir,
     dirCheckError fs "Previous dir error: " cfg.env.previous_dir]
   else [])

/-! ## Config loading (`Config::from_file`)

`Config::from_file` reads the file and deserializes it with `toml` + serde
(panicking on failure).  Textual TOML syntax is external; the embedding
works at the level of the parsed document: a TOML value is a tree of
strings, integers, booleans, arrays and tables, and `deserializeConfig`
models the serde-derived deserializer for `Config`.

serde semantics captured here (from the attributes in `config.rs`):
* every struct carries container-level `#[serde(default)]`: when a field is
  missing from the table, serde takes that field's value from the struct's
  `Default::default()` instance — it does not recursively deserialize an
  empty table for it;
* a field-level `#[serde(default = "f")]` (only `EnvOptions.branch`, with
  `f = get_default_branch` returning `"stable"`) takes precedence over the
  container default for that field, again only when `EnvOptions` itself is
  being deserialized and `branch` is missing from its table;
* the derived `Default` implementations ignore serde attributes, so
  `EnvOptions::default().branch` is the empty string;
* unknown keys are ignored (no `deny_unknown_fields`);
* a present field whose value has the wrong shape fails the whole
  deserialization (`from_file` then panics). -/

inductive TomlVal where
  | str : String → TomlVal
  | int : Nat → TomlVal
  | boolean : Bool → TomlVal
  | arr : List TomlVal → TomlVal
  | table : List (String × TomlVal) → TomlVal

/-- serde field handling: a present key must deserialize; an absent key gets
the supplied default value. -/
def deField {α : Type} (kvs : List (String × TomlVal)) (key : String)
    (de : TomlVal → Option α) (dflt : α) : Option α :=
  match kvs.lookup key with
  | some v => de v
  | none => some dflt

/-- Deserialize a TOML string. -/
def deString : TomlVal → Option String
  | .str s => some s
  | _ => none

/-- Deserialize a TOML boolean. -/
def deBool : TomlVal → Option Bool
  | .boolean b => some b
  | _ => none

/-- Deserialize a TOML integer as `u8` (range-checked). -/
def deU8 : TomlVal → Option Nat
  | .int n => if n < 256 then some n else none
  | _ => none

/-- Deserialize a TOML array of strings. -/
def deStringList : TomlVal → Option (List String)
  | .arr vs => vs.mapM deString
  | _ => none

/-- Deserialize a 2-element TOML array as a `(String, String)` pair. -/
def deStringPair : TomlVal → Option (String × String)
  | .arr [a, b] => do
    let a1 ← deString a
    let b1 ← deString b
    some (a1, b1)
  | _ => none

/-- Deserialize a TOML array of string pairs. -/
def deStringPairList : TomlVal → Option (List (String × String))
  | .arr vs => vs.mapM deStringPair
  | _ => none

/-- Deserializer for `ObsVersion`. -/
def deObsVersion : TomlVal → Option ObsVersion
  | .table kvs => do
    let vstr ← deField kvs "version_str" deString ""
    let vmaj ← deField kvs "version_major" deU8 0
    let vmin ← deField kvs "version_minor" deU8 0
    let vpat ← deField kvs "version_patch" deU8 0
    let beta ← deField kvs "beta" deU8 0
    let rc ← deField kvs "rc" deU8 0
    some ⟨vstr, vmaj, vmin, vpat, beta, rc⟩
  | _ => none

/-- Deserializer for `EnvOptions`; the `branch` field has the field-level
serde default `get_default_branch()`, i.e. `"stable"`. -/
def deEnvOptions : TomlVal → Option EnvOptions
  | .table kvs => do
    let branch ← deField kvs "branch" deString "stable"
    let input_dir ← deField kvs "input_dir" deString ""
    let output_dir ← deField kvs "output_dir" deString ""
    let previous_dir ← deField kvs "previous_dir" deString ""
    let sevenzip ← deField kvs "sevenzip_path" deString ""
    let makensis ← deField kvs "makensis_path" deString ""
    let pandoc ← deField kvs "pandoc_path" deString ""
    let pdbcopy ← deField kvs "pdbcopy_path" deString ""
    some ⟨branch, input_dir, output_dir, previous_dir, sevenzip, makensis, pandoc, pdbcopy⟩
  | _ => none

/-- Deserializer for `CopyOptions`. -/
def deCopyOptions : TomlVal → Option CopyOptions
  | .table kvs => do
    let excludes ← deField kvs "excludes" deStringList []
    let overrides ← deField kvs "overrides" deStringPairList []
    some ⟨excludes, overrides⟩
  | _ => none

/-- Deserializer for `CodesignOptions`. -/
def deCodesignOptions : TomlVal → Option CodesignOptions
  | .table kvs => do
    let skip ← deField kvs "skip_sign" deBool false
    let name ← deField kvs "sign_name" deString ""
    let digest ← deField kvs "sign_digest" deString ""
    let ts ← deField kvs "sign_ts_serv" deString ""
    let exts ← deField kvs "sign_exts" deStringList []
    some ⟨skip, name, digest, ts, exts⟩
  | _ => none

/-- Deserializer for `StripPDBOptions`. -/
def deStripPDBOptions : TomlVal → Option StripPDBOptions
  | .table kvs => do
    let exclude ← deField kvs "exclude" deStringList []
    some ⟨exclude⟩
  | _ => none

/-- Deserializer for `PreparationOptions`. -/
def dePreparationOptions : TomlVal → Option PreparationOptions
  | .table kvs => do
    let copy ← deField kvs "copy" deCopyOptions {}
    let codesign ← deField kvs "codesign" deCodesignOptions {}
    let strip ← deField kvs "strip_pdbs" deStripPDBOptions {}
    some ⟨copy, codesign, strip⟩
  | _ => none

/-- Deserializer for `ManifestPackageOptions`. -/
def deManifestPackageOptions : TomlVal → Option ManifestPackageOptions
  | .table kvs => do
    let name ← deField kvs "name" deString ""
    let incl ← deField kvs "include_files" (fun v => (deStringList v).map some) none
    some ⟨name, incl⟩
  | _ => none

/-- Deserializer for a list of `ManifestPackageOptions`. -/
def deManifestPackageList : TomlVal → Option (List ManifestPackageOptions)
  | .arr vs => vs.mapM deManifestPackageOptions
  | _ => none

/-- Deserializer for `GenerationOptions`. -/
def deGenerationOptions : TomlVal → Option GenerationOptions
  | .table kvs => do
    let removed ← deField kvs "removed_files" deStringList []
    let packages ← deField kvs "packages" deManifestPackageList []
    some ⟨removed, packages⟩
  | _ => none

/-- Deserializer for `InstallerOptions`. -/
def deInstallerOptions : TomlVal → Option InstallerOptions
  | .table kvs => do
    let script ← deField kvs "nsis_script" deString ""
    let name ← deField kvs "name" deString ""
    let skip ← deField kvs "skip_sign" deBool false
    some ⟨script, name, skip⟩
  | _ => none

/-- Deserializer for `ZipOptions`. -/
def deZipOptions : TomlVal → Option ZipOptions
  | .table kvs => do
    let name ← deField kvs "name" deString ""
    let pdb ← deField kvs "pdb_name" deString ""
    let skip ← deField kvs "skip_for_prerelease" deBool false
    some ⟨name, pdb, skip⟩
  | _ => none

/-- Deserializer for `UpdaterOptions`. -/
def deUpdaterOptions : TomlVal → Option UpdaterOptions
  | .table kvs => do
    let skip ← deField kvs "skip_sign" deBool false
    let notes ← deField kvs "notes_files" deString ""
    let upd ← deField kvs "updater_path" deString ""
    let pk ← deField kvs "private_key" deString ""
    let vc ← deField kvs "vc_redist_path" deString ""
    let skipPre ← deField kvs "skip_for_prerelease" deBool false
    some ⟨skip, notes, upd, pk, vc, skipPre⟩
  | _ => none

/-- Deserializer for `PackageOptions`. -/
def dePackageOptions : TomlVal → Option PackageOptions
  | .table kvs => do
    let installer ← deField kvs "installer" deInstallerOptions {}
    let zip ← deField kvs "zip" deZipOptions {}
    let updater ← deField kvs "updater" deUpdaterOptions {}
    some ⟨installer, zip, updater⟩
  | _ => none

/-- Deserializer for `PostOptions`. -/
def dePostOptions : TomlVal → Option PostOptions
  | .table kvs => do
    let mv ← deField kvs "move_to_old" deBool false
    some ⟨mv⟩
  | _ => none

/-- The serde-derived deserializer for `Config`, applied by
`Config::from_file` to the parsed TOML document.  A missing section is
filled from `Config::default()` (the derived `Default`), whose `env.branch`
is the empty string. -/
def deserializeConfig : TomlVal → Option Config
  | .table kvs => do
    let env ← deField kvs "env" deEnvOptions Config.defaultValue.env
    let prepare ← deField kvs "prepare" dePreparationOptions Config.defaultValue.prepare
    let generate ← deField kvs "generate" deGenerationOptions Config.defaultValue.generate
    let package ← deField kvs "package" dePackageOptions Config.defaultValue.package
    let post ← deField kvs "post" dePostOptions Config.defaultValue.post
    let obs ← deField kvs "obs_version" deObsVersion Config.defaultValue.obs_version
    some ⟨env, prepare, generate, package, post, obs⟩
  | _ => none

/-! ## Lemmas about the parser primitives -/

theorem splitFirst_no_sep (sep : Char) (l : List Char) (h : sep ∉ l) :
    splitFirst sep l = (l, none) := by
  induction l with
  | nil => rfl
  | cons c cs ih =>
    rw [List.mem_cons, not_or] at h
    rw [splitFirst, if_neg (fun hc => h.1 hc.symm)]
    simp [ih h.2]

theorem splitFirst_append (sep : Char) (a b : List Char) (h : sep ∉ a) :
    splitFirst sep (a ++ sep :: b) = (a, some b) := by
  induction a with
  | nil => simp [splitFirst]
  | cons c cs ih =>
    rw [List.mem_cons, not_or] at h
    rw [List.cons_append, splitFirst, if_neg (fun hc => h.1 hc.symm)]
    simp [ih h.2]

theorem splitOnChar_no_sep (sep : Char) (l : List Char) (h : sep ∉ l) :
    splitOnChar sep l = [l] := by
  induction l with
  | nil => rfl
  | cons c cs ih =>
    rw [List.mem_cons, not_or] at h
    rw [splitOnChar, if_neg (fun hc => h.1 hc.symm), ih h.2]

theorem splitOnChar_append (sep : Char) (a rest : List Char) (h : sep ∉ a) :
    splitOnChar sep (a ++ sep :: rest) = a :: splitOnChar sep rest := by
  induction a with
  | nil => simp [splitOnChar]
  | cons c cs ih =>
    rw [List.mem_cons, not_or] at h
    rw [List.cons_append, splitOnChar, if_neg (fun hc => h.1 hc.symm), ih h.2]

theorem digitChar_isDigit (d : Nat) : (digitChar d).isDigit = true := by
  unfold digitChar
  split <;> decide

theorem digitVal_digitChar (d : Nat) (h : d < 10) : digitVal (digitChar d) = some d := by
  have key : ∀ e, e < 10 → digitVal (digitChar e) = some e := by decide
  exact key d h

theorem renderNat_digits (n : Nat) : ∀ c ∈ renderNat n, c.isDigit = true := by
  induction n using Nat.strong_induction_on with
  | _ n ih =>
    by_cases h : n < 10
    · rw [renderNat, dif_pos h]
      intro c hc
      rw [List.mem_singleton] at hc
      subst hc
      exact digitChar_isDigit n
    · rw [renderNat, dif_neg h]
      intro c hc
      rw [List.mem_append] at hc
      rcases hc with hc | hc
      · exact ih (n / 10) (Nat.div_lt_self (by omega) (by omega)) c hc
      · rw [List.mem_singleton] at hc
        subst hc
        exact digitChar_isDigit _

theorem not_mem_renderNat (c : Char) (hc : c.isDigit = false) (n : Nat) :
    c ∉ renderNat n := by
  intro h
  have := renderNat_digits n c h
  rw [hc] at this
  exact Bool.false_ne_true this

theorem parseDigitsAux_append (l1 l2 : List Char) (acc : Nat) :
    parseDigitsAux (l1 ++ l2) acc =
      match parseDigitsAux l1 acc with
      | some r => parseDigitsAux l2 r
      | none => none := by
  induction l1 generalizing acc with
  | nil => rfl
  | cons c cs ih =>
    rw [List.cons_append]
    simp only [parseDigitsAux]
    cases digitVal c with
    | none => rfl
    | some d => exact ih _

theorem parseDigitsAux_renderNat (n acc : Nat) :
    parseDigitsAux (renderNat n) acc = some (acc * 10 ^ (renderNat n).length + n) := by
  induction n using Nat.strong_induction_on generalizing acc with
  | _ n ih =>
    by_cases h : n < 10
    · rw [renderNat, dif_pos h]
      simp only [parseDigitsAux, digitVal_digitChar n h, List.length_singleton, pow_one]
    · rw [renderNat, dif_neg h, parseDigitsAux_append,
        ih (n / 10) (Nat.div_lt_self (by omega) (by omega))]
      simp only [parseDigitsAux, digitVal_digitChar (n % 10) (by omega),
        List.length_append, List.length_singleton, Option.some.injEq]
      have hp : acc * 10 ^ ((renderNat (n / 10)).length + 1) =
          acc * 10 ^ (renderNat (n / 10)).length * 10 := by ring
      rw [hp]
      generalize acc * 10 ^ (renderNat (n / 10)).length = A
      omega

theorem parseNatDigits_renderNat (n : Nat) : parseNatDigits (renderNat n) = some n := by
  have h := parseDigitsAux_renderNat n 0
  cases hl : renderNat n with
  | nil =>
    rw [renderNat] at hl
    split at hl <;> simp_all
  | cons c cs =>
    rw [hl] at h
    simpa [parseNatDigits] using h

/-! ## Well-formed version strings -/

/-- The characters of the numeric core `Major.Minor.Patch` of a well-formed
version string, used in theorem statements. -/
def coreVersionChars (M m p : Nat) : List Char :=
  renderNat M ++ '.' :: (renderNat m ++ '.' :: renderNat p)

theorem coreVersionChars_no_hyphen (M m p : Nat) : '-' ∉ coreVersionChars M m p := by
  unfold coreVersionChars
  intro h
  rw [List.mem_append, List.mem_cons, List.mem_append, List.mem_cons] at h
  rcases h with h | h | h | h | h
  · exact not_mem_renderNat '-' (by decide) M h
  · exact absurd h (by decide)
  · exact not_mem_renderNat '-' (by decide) m h
  · exact absurd h (by decide)
  · exact not_mem_renderNat '-' (by decide) p h

theorem splitOnChar_coreVersionChars (M m p : Nat) :
    splitOnChar '.' (coreVersionChars M m p) = [renderNat M, renderNat m, renderNat p] := by
  unfold coreVersionChars
  rw [splitOnChar_append '.' _ _ (not_mem_renderNat '.' (by decide) M),
    splitOnChar_append '.' _ _ (not_mem_renderNat '.' (by decide) m),
    splitOnChar_no_sep '.' _ (not_mem_renderNat '.' (by decide) p)]

/-- Exactly one of the beta/rc fields is nonzero. -/
def exactlyOneQualifier (b r : Nat) : Prop := (b ≠ 0 ∧ r = 0) ∨ (b = 0 ∧ r ≠ 0)

theorem parse_version_core (M m p : Nat) :
    parse_version (String.mk (coreVersionChars M m p)) = .ok (M, m, p, 0, 0) := by
  unfold parse_version
  rw [show (String.mk (coreVersionChars M m p)).data = coreVersionChars M m p from rfl,
    splitFirst_no_sep '-' _ (coreVersionChars_no_hyphen M m p)]
  simp only [splitOnChar_coreVersionChars, parseNatDigits_renderNat]

theorem take_append_of_length (a b : List Char) (k : Nat) (h : a.length = k) :
    (a ++ b).take k = a := by
  subst h
  exact List.take_left a b

theorem drop_append_of_length (a b : List Char) (k : Nat) (h : a.length = k) :
    (a ++ b).drop k = b := by
  subst h
  exact List.drop_left a b

theorem parse_version_beta (M m p n : Nat) :
    parse_version (String.mk (coreVersionChars M m p ++ '-' :: ("beta".data ++ renderNat n))) =
      .ok (M, m, p, n, 0) := by
  unfold parse_version
  rw [show (String.mk (coreVersionChars M m p ++ '-' :: ("beta".data ++ renderNat n))).data =
      coreVersionChars M m p ++ '-' :: ("beta".data ++ renderNat n) from rfl,
    splitFirst_append '-' _ _ (coreVersionChars_no_hyphen M m p)]
  simp [splitOnChar_coreVersionChars, parseNatDigits_renderNat,
    take_append_of_length "beta".data (renderNat n) 4 rfl,
    drop_append_of_length "beta".data (renderNat n) 4 rfl]

theorem parse_version_rc (M m p n : Nat) :
    parse_version (String.mk (coreVersionChars M m p ++ '-' :: ("rc".data ++ renderNat n))) =
      .ok (M, m, p, 0, n) := by
  unfold parse_version
  rw [show (String.mk (coreVersionChars M m p ++ '-' :: ("rc".data ++ renderNat n))).data =
      coreVersionChars M m p ++ '-' :: ("rc".data ++ renderNat n) from rfl,
    splitFirst_append '-' _ _ (coreVersionChars_no_hyphen M m p)]
  have hne : ("rc".data ++ renderNat n).take 4 ≠ "beta".data := by
    rw [show "rc".data ++ renderNat n = 'r' :: 'c' :: renderNat n from rfl]
    rw [List.take_succ_cons, List.take_succ_cons]
    intro h
    rw [show "beta".data = 'b' :: 'e' :: "ta".data from rfl] at h
    exact absurd (List.head_eq_of_cons_eq h) (by decide)
  simp [splitOnChar_coreVersionChars, parseNatDigits_renderNat, if_neg hne,
    take_append_of_length "rc".data (renderNat n) 2 rfl,
    drop_append_of_length "rc".data (renderNat n) 2 rfl]

theorem parse_version_bad_qualifier (M m p : Nat) (q : List Char)
    (h4 : q.take 4 ≠ "beta".data) (h2 : q.take 2 ≠ "rc".data) :
    parse_version (String.mk (coreVersionChars M m p ++ '-' :: q)) =
      .error invalidVersionFormat := by
  unfold parse_version
  rw [show (String.mk (coreVersionChars M m p ++ '-' :: q)).data =
      coreVersionChars M m p ++ '-' :: q from rfl,
    splitFirst_append '-' _ _ (coreVersionChars_no_hyphen M m p)]
  simp only [splitOnChar_coreVersionChars, parseNatDigits_renderNat, if_neg h4, if_neg h2]

/-- C6: for well-formed inputs `Major.Minor.Patch` with an optional
`-beta<N>` / `-rc<N>` suffix, `parse_version` returns the five-tuple with
the qualifier number in the matching slot (both zero without a qualifier,
exactly one nonzero slot for a positive qualifier number), and it signals
`InvalidVersionFormat` when the numeric triple cannot be parsed or the
qualifier keyword is neither `beta` nor `rc`. -/
theorem parse_version_wellformed :
    (∀ M m p : Nat,
      parse_version (String.mk (coreVersionChars M m p)) = .ok (M, m, p, 0, 0))
    ∧ (∀ M m p n : Nat,
      parse_version (String.mk (coreVersionChars M m p ++ '-' :: ("beta".data ++ renderNat n))) =
        .ok (M, m, p, n, 0))
    ∧ (∀ M m p n : Nat,
      parse_version (String.mk (coreVersionChars M m p ++ '-' :: ("rc".data ++ renderNat n))) =
        .ok (M, m, p, 0, n))
    ∧ (∀ M m p n : Nat, 0 < n →
      (∃ v, parse_version
          (String.mk (coreVersionChars M m p ++ '-' :: ("beta".data ++ renderNat n))) = .ok v ∧
        exactlyOneQualifier v.2.2.2.1 v.2.2.2.2) ∧
      (∃ v, parse_version
          (String.mk (coreVersionChars M m p ++ '-' :: ("rc".data ++ renderNat n))) = .ok v ∧
        exactlyOneQualifier v.2.2.2.1 v.2.2.2.2))
    ∧ (∀ (M m p : Nat) (q : List Char), q.take 4 ≠ "beta".data → q.take 2 ≠ "rc".data →
      parse_version (String.mk (coreVersionChars M m p ++ '-' :: q)) =
        .error invalidVersionFormat)
    ∧ parse_version "1.2.3" = .ok (1, 2, 3, 0, 0)
    ∧ parse_version "1.2.3-beta4" = .ok (1, 2, 3, 4, 0)
    ∧ parse_version "1.2.3-rc2" = .ok (1, 2, 3, 0, 2)
    ∧ parse_version "1.2" = .error invalidVersionFormat
    ∧ parse_version "a.2.3" = .error invalidVersionFormat
    ∧ parse_version "1.2.3-alpha1" = .error invalidVersionFormat := by
  refine ⟨parse_version_core, parse_version_beta, parse_version_rc, ?_,
    parse_version_bad_qualifier, by decide, by decide, by decide, by decide, by decide, by decide⟩
  intro M m p n hn
  constructor
  · exact ⟨(M, m, p, n, 0), parse_version_beta M m p n,
      Or.inl ⟨show n ≠ 0 by omega, rfl⟩⟩
  · exact ⟨(M, m, p, 0, n), parse_version_rc M m p n,
      Or.inr ⟨rfl, show n ≠ 0 by omega⟩⟩

/-- C6 witness: the hypotheses of the quantified parts discharged at
concrete inputs: the qualifier keyword `alpha` is rejected, and
`2.0.0-beta1` has exactly one nonzero qualifier slot. -/
theorem parse_version_wellformed_witness :
    parse_version (String.mk (coreVersionChars 1 2 3 ++ '-' :: "alpha1".data)) =
      .error invalidVersionFormat ∧
    (∃ v, parse_version
        (String.mk (coreVersionChars 2 0 0 ++ '-' :: ("beta".data ++ renderNat 1))) = .ok v ∧
      exactlyOneQualifier v.2.2.2.1 v.2.2.2.2) :=
  ⟨parse_version_wellformed.2.2.2.2.1 1 2 3 "alpha1".data (by decide) (by decide),
   (parse_version_wellformed.2.2.2.1 2 0 0 1 (by decide)).1⟩

/-! ## The canonical version string (`version_str`) -/

theorem string_append_data (a b : String) : (a ++ b).data = a.data ++ b.data := rfl

theorem string_mk_data (s : String) : String.mk s.data = s := rfl

/-- C7: `set_version` records as `version_str` exactly the portion of the
input before the first hyphen — the whole input when no hyphen occurs; the
qualifier suffix never appears in `version_str`. -/
theorem set_version_version_str :
    (∀ (cfg : Config) (a b : String) (bn rn : Nat) (cfg' : Config), '-' ∉ a.data →
      set_version cfg (a ++ "-" ++ b) bn rn = .ok cfg' →
      cfg'.obs_version.version_str = a)
    ∧ (∀ (cfg : Config) (s : String) (bn rn : Nat) (cfg' : Config), '-' ∉ s.data →
      set_version cfg s bn rn = .ok cfg' →
      cfg'.obs_version.version_str = s) := by
  constructor
  · intro cfg a b bn rn cfg' ha hok
    unfold set_version at hok
    cases hpv : parse_version (a ++ "-" ++ b) with
    | error e => rw [hpv] at hok; cases hok
    | ok v =>
      rw [hpv] at hok
      have hdata : (a ++ "-" ++ b).data = a.data ++ '-' :: b.data := by
        rw [string_append_data, string_append_data, List.append_assoc]
        rfl
      have hcfg := (Except.ok.inj hok).symm
      rw [hcfg]
      show String.mk (splitFirst '-' (a ++ "-" ++ b).data).1 = a
      rw [hdata, splitFirst_append '-' _ _ ha]
  · intro cfg s bn rn cfg' hs hok
    unfold set_version at hok
    cases hpv : parse_version s with
    | error e => rw [hpv] at hok; cases hok
    | ok v =>
      rw [hpv] at hok
      have hcfg := (Except.ok.inj hok).symm
      rw [hcfg]
      show String.mk (splitFirst '-' s.data).1 = s
      rw [splitFirst_no_sep '-' _ hs]

/-- C7 witness: at the concrete input `1.2.3-beta4`, `set_version` records
`version_str = "1.2.3"`. -/
theorem set_version_version_str_witness :
    ('-' ∉ "1.2.3".data) ∧
    ({ Config.defaultValue with
      obs_version := ⟨"1.2.3", 1, 2, 3, 4, 0⟩ } : Config).obs_version.version_str = "1.2.3" :=
  ⟨by decide,
   set_version_version_str.1 Config.defaultValue "1.2.3" "beta4" 0 0
     { Config.defaultValue with obs_version := ⟨"1.2.3", 1, 2, 3, 4, 0⟩ }
     (by decide) (by decide)⟩

/-! ## Characterization of `apply_args` -/

/-- The configuration produced by `apply_args` when the version string
parses to `v`: each CLI override is applied field-by-field (`Option.getD`),
and the three skip flags are written unconditionally. -/
def mergedConfig (cfg : Config) (args : MainArgs) (v : Nat × Nat × Nat × Nat × Nat) : Config :=
  { cfg with
    env := { cfg.env with
      input_dir := args.new.getD cfg.env.input_dir,
      output_dir := args.out.getD cfg.env.output_dir,
      previous_dir := args.old.getD cfg.env.previous_dir,
      branch := args.branch.getD cfg.env.branch },
    obs_version := {
      version_str := String.mk (splitFirst '-' args.version.data).1,
      version_major := v.1,
      version_minor := v.2.1,
      version_patch := v.2.2.1,
      beta := args.beta.getD v.2.2.2.1,
      rc := args.rc.getD v.2.2.2.2 },
    prepare := { cfg.prepare with
      codesign := { cfg.prepare.codesign with skip_sign := args.skip_codesigning } },
    package := { cfg.package with
      installer := { cfg.package.installer with skip_sign := args.skip_codesigning },
      updater := { cfg.package.updater with skip_sign := !args.skip_manifest_signing } } }

set_option maxHeartbeats 4000000 in
theorem apply_args_eq_merged (cfg : Config) (args : MainArgs)
    (v : Nat × Nat × Nat × Nat × Nat) (h : parse_version args.version = .ok v) :
    apply_args cfg args = .ok (mergedConfig cfg args v) := by
  obtain ⟨ac, av, ab, ar, abr, an, ao, aout, anf, apk, s1, s2, s3, s4, s5⟩ := args
  simp only at h
  cases ab <;> cases ar <;> cases an <;> cases ao <;> cases aout <;> cases abr <;>
    (unfold apply_args set_version mergedConfig; rw [h]; rfl)

/-- C1: `apply_args` applies version overrides field-by-field: a CLI beta
replaces the string-derived beta, a CLI rc replaces the string-derived rc,
and a field with no CLI override keeps the value parsed from the version
string; the overrides are not a mutually exclusive group. -/
theorem apply_args_version_overrides (cfg : Config) (args : MainArgs)
    (M m p sb sr : Nat) (hparse : parse_version args.version = .ok (M, m, p, sb, sr))
    (cfg' : Config) (happ : apply_args cfg args = .ok cfg') :
    cfg'.obs_version.beta = args.beta.getD sb ∧
    cfg'.obs_version.rc = args.rc.getD sr := by
  rw [apply_args_eq_merged cfg args (M, m, p, sb, sr) hparse] at happ
  have h := Except.ok.inj happ
  subst h
  exact ⟨rfl, rfl⟩

/-- CLI arguments with version `1.0.0-beta3` and only `rc = 5` supplied. -/
def args0 : MainArgs :=
  { config := "bouf.toml", version := "1.0.0-beta3", rc := some 5 }

/-- The configuration `apply_args` produces from the defaults and `args0`. -/
def merged0 : Config :=
  { Config.defaultValue with
    obs_version := ⟨"1.0.0", 1, 0, 0, 3, 5⟩,
    package := { Config.defaultValue.package with
      updater := { Config.defaultValue.package.updater with skip_sign := true } } }

/-- C1 witness: version `1.0.0-beta3` with only CLI `rc = 5` yields
`beta = 3` (kept from the string) and `rc = 5` (the CLI override). -/
theorem apply_args_version_overrides_witness :
    merged0.obs_version.beta = 3 ∧ merged0.obs_version.rc = 5 :=
  apply_args_version_overrides Config.defaultValue args0 1 0 0 3 0 (by decide)
    merged0 (by decide)

/-- C2: after `apply_args`, the preparation codesign skip flag and the
installer signing skip flag both equal the CLI skip-codesigning flag
directly, while the updater manifest-signing skip flag equals the logical
negation of the CLI skip-manifest-signing flag. -/
theorem apply_args_skip_flags (cfg : Config) (args : MainArgs) (cfg' : Config)
    (happ : apply_args cfg args = .ok cfg') :
    cfg'.prepare.codesign.skip_sign = args.skip_codesigning ∧
    cfg'.package.installer.skip_sign = args.skip_codesigning ∧
    cfg'.package.updater.skip_sign = !args.skip_manifest_signing := by
  cases hpv : parse_version args.version with
  | error e =>
    unfold apply_args set_version at happ
    rw [hpv] at happ
    cases happ
  | ok v =>
    rw [apply_args_eq_merged cfg args v hpv] at happ
    have h := Except.ok.inj happ
    subst h
    exact ⟨rfl, rfl, rfl⟩

/-- CLI arguments with version `1.2.3` and `skip_manifest_signing` set. -/
def args1 : MainArgs :=
  { config := "bouf.toml", version := "1.2.3", skip_manifest_signing := true }

/-- The configuration `apply_args` produces from the defaults and `args1`. -/
def merged1 : Config :=
  { Config.defaultValue with obs_version := ⟨"1.2.3", 1, 2, 3, 0, 0⟩ }

/-- C2 witness: with `skip_codesigning = false` and
`skip_manifest_signing = true`, the two codesign-derived flags are `false`
and the updater skip flag is `!true = false`. -/
theorem apply_args_skip_flags_witness :
    merged1.prepare.codesign.skip_sign = false ∧
    merged1.package.installer.skip_sign = false ∧
    merged1.package.updater.skip_sign = !true :=
  apply_args_skip_flags Config.defaultValue args1 merged1 (by decide)

/-- C10: `apply_args` modifies only the six version fields, the three
directory fields, the branch, and the three skip flags; every other
configuration field is unchanged — in particular the CLI note-file and
private-key values and the skip-installer, skip-patches and clear-output
flags are never written into the configuration. -/
theorem apply_args_frame (cfg : Config) (args : MainArgs) (cfg' : Config)
    (happ : apply_args cfg args = .ok cfg') :
    cfg'.env.sevenzip_path = cfg.env.sevenzip_path ∧
    cfg'.env.makensis_path = cfg.env.makensis_path ∧
    cfg'.env.pandoc_path = cfg.env.pandoc_path ∧
    cfg'.env.pdbcopy_path = cfg.env.pdbcopy_path ∧
    cfg'.prepare.copy = cfg.prepare.copy ∧
    cfg'.prepare.strip_pdbs = cfg.prepare.strip_pdbs ∧
    cfg'.prepare.codesign.sign_name = cfg.prepare.codesign.sign_name ∧
    cfg'.prepare.codesign.sign_digest = cfg.prepare.codesign.sign_digest ∧
    cfg'.prepare.codesign.sign_ts_serv = cfg.prepare.codesign.sign_ts_serv ∧
    cfg'.prepare.codesign.sign_exts = cfg.prepare.codesign.sign_exts ∧
    cfg'.generate = cfg.generate ∧
    cfg'.package.installer.nsis_script = cfg.package.installer.nsis_script ∧
    cfg'.package.installer.name = cfg.package.installer.name ∧
    cfg'.package.zip = cfg.package.zip ∧
    cfg'.package.updater.notes_files = cfg.package.updater.notes_files ∧
    cfg'.package.updater.updater_path = cfg.package.updater.updater_path ∧
    cfg'.package.updater.private_key = cfg.package.updater.private_key ∧
    cfg'.package.updater.vc_redist_path = cfg.package.updater.vc_redist_path ∧
    cfg'.package.updater.skip_for_prerelease = cfg.package.updater.skip_for_prerelease ∧
    cfg'.post = cfg.post := by
  cases hpv : parse_version args.version with
  | error e =>
    unfold apply_args set_version at happ
    rw [hpv] at happ
    cases happ
  | ok v =>
    rw [apply_args_eq_merged cfg args v hpv] at happ
    have h := Except.ok.inj happ
    subst h
    exact ⟨rfl, rfl, rfl, rfl, rfl, rfl, rfl, rfl, rfl, rfl, rfl, rfl, rfl, rfl,
      rfl, rfl, rfl, rfl, rfl, rfl⟩

/-- C10 witness: the frame condition instantiated at the defaults and
`args0` (which carries a note-file-free, flagless argument set). -/
theorem apply_args_frame_witness :
    merged0.env.sevenzip_path = Config.defaultValue.env.sevenzip_path ∧
    merged0.env.makensis_path = Config.defaultValue.env.makensis_path ∧
    merged0.env.pandoc_path = Config.defaultValue.env.pandoc_path ∧
    merged0.env.pdbcopy_path = Config.defaultValue.env.pdbcopy_path ∧
    merged0.prepare.copy = Config.defaultValue.prepare.copy ∧
    merged0.prepare.strip_pdbs = Config.defaultValue.prepare.strip_pdbs ∧
    merged0.prepare.codesign.sign_name = Config.defaultValue.prepare.codesign.sign_name ∧
    merged0.prepare.codesign.sign_digest = Config.defaultValue.prepare.codesign.sign_digest ∧
    merged0.prepare.codesign.sign_ts_serv = Config.defaultValue.prepare.codesign.sign_ts_serv ∧
    merged0.prepare.codesign.sign_exts = Config.defaultValue.prepare.codesign.sign_exts ∧
    merged0.generate = Config.defaultValue.generate ∧
    merged0.package.installer.nsis_script = Config.defaultValue.package.installer.nsis_script ∧
    merged0.package.installer.name = Config.defaultValue.package.installer.name ∧
    merged0.package.zip = Config.defaultValue.package.zip ∧
    merged0.package.updater.notes_files = Config.defaultValue.package.updater.notes_files ∧
    merged0.package.updater.updater_path = Config.defaultValue.package.updater.updater_path ∧
    merged0.package.updater.private_key = Config.defaultValue.package.updater.private_key ∧
    merged0.package.updater.vc_redist_path = Config.defaultValue.package.updater.vc_redist_path ∧
    merged0.package.updater.skip_for_prerelease =
      Config.defaultValue.package.updater.skip_for_prerelease ∧
    merged0.post = Config.defaultValue.post :=
  apply_args_frame Config.defaultValue args0 merged0 (by decide)

/-! ## Lemmas about `Config::validate` -/

/-- The first `some` in an ordered list of per-check results. -/
def firstFailure : List (Option SomeError) → Option SomeError
  | [] => none
  | none :: rest => firstFailure rest
  | some e :: _ => some e

theorem validate_signing_eq (fs : FsEnv) (cfg : Config) :
    validate_signing fs cfg =
      (cfg, match signingCheckError fs cfg with
        | some e => .error e
        | none => .ok ()) := by
  unfold validate_signing signingCheckError
  by_cases h : cfg.package.updater.skip_sign
  · simp [h]
  · simp only [h, if_false, Bool.false_eq_true]
    cases fs.updater_private_key_env
    · cases fs.metadata cfg.package.updater.private_key <;> simp
    · simp

theorem validate_binaries_snd (fs : FsEnv) (cfg : Config) :
    (validate_binaries fs cfg).2 =
      match firstFailure
          [binCheckError fs cfg.env.pdbcopy_path,
           binCheckError fs cfg.env.makensis_path,
           binCheckError fs cfg.env.sevenzip_path,
           binCheckError fs cfg.env.pandoc_path] with
      | some e => .error e
      | none => .ok () := by
  unfold validate_binaries binCheckError
  cases h1 : check_binary_path fs cfg.env.pdbcopy_path <;> simp [h1, firstFailure]
  cases h2 : check_binary_path fs cfg.env.makensis_path <;> simp [h2, firstFailure]
  cases h3 : check_binary_path fs cfg.env.sevenzip_path <;> simp [h3, firstFailure]
  cases h4 : check_binary_path fs cfg.env.pandoc_path <;> simp [h4, firstFailure]

theorem validate_binaries_fst (fs : FsEnv) (cfg : Config) :
    ((validate_binaries fs cfg).1).package = cfg.package ∧
    ((validate_binaries fs cfg).1).env.input_dir = cfg.env.input_dir ∧
    ((validate_binaries fs cfg).1).env.previous_dir = cfg.env.previous_dir ∧
    ((validate_binaries fs cfg).1).env.output_dir = cfg.env.output_dir := by
  unfold validate_binaries
  cases h1 : check_binary_path fs cfg.env.pdbcopy_path <;> simp
  cases h2 : check_binary_path fs cfg.env.makensis_path <;> simp
  cases h3 : check_binary_path fs cfg.env.sevenzip_path <;> simp
  cases h4 : check_binary_path fs cfg.env.pandoc_path <;> simp

theorem signingCheckError_congr (fs : FsEnv) (c1 c2 : Config)
    (h : c1.package = c2.package) :
    signingCheckError fs c1 = signingCheckError fs c2 := by
  unfold signingCheckError
  rw [h]

theorem validate_paths_snd (fs : FsEnv) (cfg : Config) :
    (validate_paths fs cfg).2 =
      match firstFailure
          [dirCheckError fs "Input dir error: " cfg.env.input_dir,
           dirCheckError fs "Previous dir error: " cfg.env.previous_dir] with
      | some e => .error e
      | none => .ok () := by
  unfold validate_paths dirCheckError
  cases h1 : fs.canonicalize cfg.env.input_dir <;> simp [h1, firstFailure]
  cases h2 : fs.canonicalize cfg.env.previous_dir <;> simp [h2, firstFailure]

theorem firstFailure_fixed4_some (b1 b2 b3 b4 : Option SomeError)
    (rest : List (Option SomeError)) (e : SomeError)
    (h : firstFailure [b1, b2, b3, b4] = some e) :
    firstFailure (b1 :: b2 :: b3 :: b4 :: rest) = some e := by
  cases b1 <;> cases b2 <;> cases b3 <;> cases b4 <;> simp_all [firstFailure]

theorem firstFailure_fixed4_none (b1 b2 b3 b4 : Option SomeError)
    (rest : List (Option SomeError))
    (h : firstFailure [b1, b2, b3, b4] = none) :
    firstFailure (b1 :: b2 :: b3 :: b4 :: rest) = firstFailure rest := by
  cases b1 <;> cases b2 <;> cases b3 <;> cases b4 <;> simp_all [firstFailure]

/-- C3: `validate` runs its checks in the fixed order binaries (pdbcopy,
makensis, sevenzip, pandoc, when enabled) → signing key → codesign
placeholder → input directory → previous directory (when enabled), and its
outcome is exactly determined by the first failing check in that order: it
returns the first check error, and `Ok` exactly when every enabled check
succeeds. -/
theorem validate_fail_fast (fs : FsEnv) (cb cp : Bool) (cfg : Config) :
    (validate fs cb cp cfg).2 =
      match firstFailure (validate_check_errors fs cb cp cfg) with
      | some e => .error e
      | none => .ok () := by
  unfold validate vstep validate_check_errors
  cases cb with
  | false =>
    simp only [Bool.false_eq_true, if_false, List.nil_append]
    rw [validate_signing_eq]
    cases hs : signingCheckError fs cfg with
    | some e => simp [firstFailure]
    | none =>
      dsimp only
      cases cp with
      | false => simp [firstFailure]
      | true =>
        simp only [eq_self_iff_true, if_true]
        rw [validate_paths_snd]
        rfl
  | true =>
    simp only [eq_self_iff_true, if_true, List.append_assoc, List.cons_append,
      List.nil_append]
    have hb2 := validate_binaries_snd fs cfg
    obtain ⟨hbp, hbi, hbprev, hbo⟩ := validate_binaries_fst fs cfg
    cases hvb : validate_binaries fs cfg with
    | mk cfg1 r =>
      rw [hvb] at hb2 hbp hbi hbprev hbo
      dsimp only at hb2 hbp hbi hbprev hbo
      cases hfb : firstFailure
          [binCheckError fs cfg.env.pdbcopy_path,
           binCheckError fs cfg.env.makensis_path,
           binCheckError fs cfg.env.sevenzip_path,
           binCheckError fs cfg.env.pandoc_path] with
      | some e =>
        rw [hfb] at hb2
        dsimp only at hb2
        subst hb2
        dsimp only
        rw [firstFailure_fixed4_some _ _ _ _ _ e hfb]
      | none =>
        rw [hfb] at hb2
        dsimp only at hb2
        subst hb2
        dsimp only
        rw [validate_signing_eq, signingCheckError_congr fs cfg1 cfg hbp,
          firstFailure_fixed4_none _ _ _ _ _ hfb]
        cases hs : signingCheckError fs cfg with
        | some e => simp [firstFailure]
        | none =>
          dsimp only
          cases cp with
          | false => simp [firstFailure]
          | true =>
            simp only [eq_self_iff_true, if_true]
            rw [validate_paths_snd, hbi, hbprev]
            rfl

/-! ## The output directory is never touched (C8) -/

/-- Replace only the output directory field of a configuration. -/
def withOutputDir (o : String) (cfg : Config) : Config :=
  { cfg with env := { cfg.env with output_dir := o } }

theorem validate_binaries_withOutputDir (fs : FsEnv) (o : String) (cfg : Config) :
    validate_binaries fs (withOutputDir o cfg) =
      (withOutputDir o (validate_binaries fs cfg).1, (validate_binaries fs cfg).2) := by
  unfold validate_binaries withOutputDir
  cases h1 : check_binary_path fs cfg.env.pdbcopy_path <;> simp [h1]
  cases h2 : check_binary_path fs cfg.env.makensis_path <;> simp [h2]
  cases h3 : check_binary_path fs cfg.env.sevenzip_path <;> simp [h3]
  cases h4 : check_binary_path fs cfg.env.pandoc_path <;> simp [h4]

theorem validate_signing_withOutputDir (fs : FsEnv) (o : String) (cfg : Config) :
    validate_signing fs (withOutputDir o cfg) =
      (withOutputDir o (validate_signing fs cfg).1, (validate_signing fs cfg).2) := by
  rw [validate_signing_eq, validate_signing_eq,
    signingCheckError_congr fs (withOutputDir o cfg) cfg rfl]

theorem validate_paths_withOutputDir (fs : FsEnv) (o : String) (cfg : Config) :
    validate_paths fs (withOutputDir o cfg) =
      (withOutputDir o (validate_paths fs cfg).1, (validate_paths fs cfg).2) := by
  unfold validate_paths withOutputDir
  cases h1 : fs.canonicalize cfg.env.input_dir <;> simp [h1]
  cases h2 : fs.canonicalize cfg.env.previous_dir <;> simp [h2]

theorem validate_paths_fst_output (fs : FsEnv) (cfg : Config) :
    ((validate_paths fs cfg).1).env.output_dir = cfg.env.output_dir := by
  unfold validate_paths
  cases h1 : fs.canonicalize cfg.env.input_dir <;> simp
  cases h2 : fs.canonicalize cfg.env.previous_dir <;> simp

/-- C8: `validate` never reads, canonicalizes, or modifies the output
directory: for every configuration and switch combination the field is
unchanged by `validate` (whether it succeeds or fails), and replacing it
changes neither the outcome nor any other field of the result. -/
theorem validate_output_dir_frame (fs : FsEnv) (cb cp : Bool) (cfg : Config) :
    ((validate fs cb cp cfg).1).env.output_dir = cfg.env.output_dir ∧
    (∀ o : String,
      validate fs cb cp (withOutputDir o cfg) =
        (withOutputDir o (validate fs cb cp cfg).1, (validate fs cb cp cfg).2)) := by
  constructor
  · unfold validate vstep
    cases cb with
    | false =>
      simp only [Bool.false_eq_true, if_false]
      rw [validate_signing_eq]
      cases hs : signingCheckError fs cfg with
      | some e => rfl
      | none =>
        dsimp only
        cases cp with
        | false => rfl
        | true =>
          simp only [eq_self_iff_true, if_true]
          exact validate_paths_fst_output fs cfg
    | true =>
      simp only [eq_self_iff_true, if_true]
      obtain ⟨hbp, hbi, hbprev, hbo⟩ := validate_binaries_fst fs cfg
      cases hvb : validate_binaries fs cfg with
      | mk cfg1 r =>
        rw [hvb] at hbp hbi hbprev hbo
        dsimp only at hbp hbi hbprev hbo
        cases r with
        | error e => exact hbo
        | ok u =>
          dsimp only
          rw [validate_signing_eq]
          cases hs : signingCheckError fs cfg1 with
          | some e => exact hbo
          | none =>
            dsimp only
            cases cp with
            | false => exact hbo
            | true =>
              simp only [eq_self_iff_true, if_true]
              rw [validate_paths_fst_output fs cfg1]
              exact hbo
  · intro o
    unfold validate vstep
    cases cb with
    | false =>
      simp only [Bool.false_eq_true, if_false]
      rw [validate_signing_withOutputDir, validate_signing_eq]
      cases hs : signingCheckError fs cfg with
      | some e => rfl
      | none =>
        dsimp only
        cases cp with
        | false => rfl
        | true =>
          simp only [eq_self_iff_true, if_true]
          rw [validate_paths_withOutputDir]
    | true =>
      simp only [eq_self_iff_true, if_true]
      rw [validate_binaries_withOutputDir]
      cases hvb : validate_binaries fs cfg with
      | mk cfg1 r =>
        dsimp only
        cases r with
        | error e => rfl
        | ok u =>
          dsimp only
          rw [validate_signing_withOutputDir, validate_signing_eq]
          cases hs : signingCheckError fs cfg1 with
          | some e => rfl
          | none =>
            dsimp only
            cases cp with
            | false => rfl
            | true =>
              simp only [eq_self_iff_true, if_true]
              rw [validate_paths_withOutputDir]

/-! ## The signing-key check (C4) -/

/-- `validate` is determined by binary resolution, canonicalization, and
the behaviour of the signing stage on configurations sharing the original
package section. -/
theorem validate_congr (fs1 fs2 : FsEnv) (cb cp : Bool) (cfg : Config)
    (hres : fs1.resolveBinary = fs2.resolveBinary)
    (hcanon : fs1.canonicalize = fs2.canonicalize)
    (hsign : ∀ c : Config, c.package = cfg.package →
      validate_signing fs1 c = validate_signing fs2 c) :
    validate fs1 cb cp cfg = validate fs2 cb cp cfg := by
  have hb : validate_binaries fs1 cfg = validate_binaries fs2 cfg := by
    unfold validate_binaries check_binary_path
    rw [hres]
  have hp : ∀ c : Config, validate_paths fs1 c = validate_paths fs2 c := by
    intro c
    unfold validate_paths
    rw [hcanon]
  unfold validate vstep
  cases cb with
  | false =>
    simp only [Bool.false_eq_true, if_false]
    rw [hsign cfg rfl]
    cases validate_signing fs2 cfg with
    | mk c2 r2 =>
      cases r2 with
      | error e => rfl
      | ok u =>
        dsimp only
        cases cp with
        | false => rfl
        | true =>
          simp only [eq_self_iff_true, if_true]
          exact hp c2
  | true =>
    simp only [eq_self_iff_true, if_true]
    rw [hb]
    obtain ⟨hbp, hbi, hbprev, hbo⟩ := validate_binaries_fst fs2 cfg
    cases hvb : validate_binaries fs2 cfg with
    | mk c1 r =>
      rw [hvb] at hbp
      dsimp only at hbp
      cases r with
      | error e => rfl
      | ok u =>
        dsimp only
        rw [hsign c1 hbp]
        cases validate_signing fs2 c1 with
        | mk c2 r2 =>
          cases r2 with
          | error e => rfl
          | ok u2 =>
            dsimp only
            cases cp with
            | false => rfl
            | true =>
              simp only [eq_self_iff_true, if_true]
              exact hp c2

/-- C4: the signing-key check runs exactly when the updater skip-sign field
is false: (1) when it is true, `validate` ignores both the
`UPDATER_PRIVATE_KEY` environment variable and the key-file metadata;
(2) when the environment variable is set, `validate` never consults the
file system for the key file; (3) when the check runs with the environment
variable set, it succeeds — with no assumption on the key-file metadata,
so even if the configured key file does not exist; (4) when the check runs
with the variable absent and the key file missing, `validate` fails with
the signing-key error (before any path mutation); (5) when the check runs
with the variable absent and the key file present, it passes. -/
theorem validate_signing_key_check :
    (∀ (fs1 fs2 : FsEnv) (cb cp : Bool) (cfg : Config),
      fs1.resolveBinary = fs2.resolveBinary → fs1.canonicalize = fs2.canonicalize →
      cfg.package.updater.skip_sign = true →
      validate fs1 cb cp cfg = validate fs2 cb cp cfg)
    ∧ (∀ (fs1 fs2 : FsEnv) (cb cp : Bool) (cfg : Config) (v : String),
      fs1.resolveBinary = fs2.resolveBinary → fs1.canonicalize = fs2.canonicalize →
      fs1.updater_private_key_env = some v → fs2.updater_private_key_env = some v →
      validate fs1 cb cp cfg = validate fs2 cb cp cfg)
    ∧ (∀ (fs : FsEnv) (cfg : Config) (v : String),
      cfg.package.updater.skip_sign = false →
      fs.updater_private_key_env = some v →
      validate fs false false cfg = (cfg, .ok ()))
    ∧ (∀ (fs : FsEnv) (cp : Bool) (cfg : Config) (e : String),
      cfg.package.updater.skip_sign = false →
      fs.updater_private_key_env = none →
      fs.metadata cfg.package.updater.private_key = .error e →
      validate fs false cp cfg = (cfg, .error ⟨"Private key not found: " ++ e⟩))
    ∧ (∀ (fs : FsEnv) (cfg : Config),
      cfg.package.updater.skip_sign = false →
      fs.updater_private_key_env = none →
      fs.metadata cfg.package.updater.private_key = .ok () →
      validate fs false false cfg = (cfg, .ok ())) := by
  refine ⟨?_, ?_, ?_, ?_, ?_⟩
  · intro fs1 fs2 cb cp cfg hres hcanon hskip
    refine validate_congr fs1 fs2 cb cp cfg hres hcanon ?_
    intro c hc
    rw [validate_signing_eq, validate_signing_eq]
    unfold signingCheckError
    rw [hc, hskip]
    simp
  · intro fs1 fs2 cb cp cfg v hres hcanon henv1 henv2
    refine validate_congr fs1 fs2 cb cp cfg hres hcanon ?_
    intro c hc
    rw [validate_signing_eq, validate_signing_eq]
    unfold signingCheckError
    rw [henv1, henv2]
  · intro fs cfg v hskip henv
    unfold validate vstep validate_signing
    simp only [Bool.false_eq_true, if_false]
    rw [hskip, henv]
    simp
  · intro fs cp cfg e hskip henv hmeta
    unfold validate vstep validate_signing
    simp only [Bool.false_eq_true, if_false]
    rw [hskip, henv, hmeta]
    simp
  · intro fs cfg hskip henv hmeta
    unfold validate vstep validate_signing
    simp only [Bool.false_eq_true, if_false]
    rw [hskip, henv, hmeta]
    simp

/-- A file-system environment with no binaries, no `UPDATER_PRIVATE_KEY`,
no files on disk, and identity canonicalization. -/
def fsMissingKey : FsEnv :=
  { resolveBinary := fun _ => none,
    updater_private_key_env := none,
    metadata := fun _ => .error "ENOENT",
    canonicalize := fun p => .ok p }

/-- A file-system environment where `UPDATER_PRIVATE_KEY` is set while no
file exists on disk (every `metadata` query fails). -/
def fsEnvKeyOnly : FsEnv :=
  { resolveBinary := fun _ => none,
    updater_private_key_env := some "KEY",
    metadata := fun _ => .error "ENOENT",
    canonicalize := fun p => .ok p }

/-- C4 witness: with signing enabled, a set `UPDATER_PRIVATE_KEY` makes
`validate` succeed even though the configured key file does not exist;
with the variable absent and the key file missing, `validate` fails with
the signing-key error and leaves the configuration unchanged. -/
theorem validate_signing_key_check_witness :
    validate fsEnvKeyOnly false false Config.defaultValue =
      (Config.defaultValue, .ok ()) ∧
    validate fsMissingKey false false Config.defaultValue =
      (Config.defaultValue, .error ⟨"Private key not found: " ++ "ENOENT"⟩) :=
  ⟨validate_signing_key_check.2.2.1 fsEnvKeyOnly Config.defaultValue "KEY" rfl rfl,
   validate_signing_key_check.2.2.2.1 fsMissingKey false Config.defaultValue "ENOENT"
     rfl rfl rfl⟩

/-! ## Canonicalization and idempotence (C9) -/

/-- C9: with path checking enabled (binary checking disabled) and a
successful run, `validate` rewrites the input and previous directories to
the canonical forms returned by the file system, and — provided
canonicalization itself is idempotent on the file system — a second run on
the already-canonicalized configuration succeeds and changes nothing. -/
theorem validate_canonicalize_idempotent (fs : FsEnv) (cfg cfg1 : Config)
    (hidem : ∀ p r, fs.canonicalize p = .ok r → fs.canonicalize r = .ok r)
    (hrun : validate fs false true cfg = (cfg1, .ok ())) :
    fs.canonicalize cfg.env.input_dir = .ok cfg1.env.input_dir ∧
    fs.canonicalize cfg.env.previous_dir = .ok cfg1.env.previous_dir ∧
    validate fs false true cfg1 = (cfg1, .ok ()) := by
  unfold validate vstep at hrun ⊢
  simp only [Bool.false_eq_true, if_false, eq_self_iff_true, if_true] at hrun ⊢
  rw [validate_signing_eq] at hrun
  cases hs : signingCheckError fs cfg with
  | some e =>
    rw [hs] at hrun
    dsimp only at hrun
    exact absurd (Prod.mk.inj hrun).2 (by simp)
  | none =>
    rw [hs] at hrun
    dsimp only at hrun
    unfold validate_paths at hrun
    cases h1 : fs.canonicalize cfg.env.input_dir with
    | error e =>
      rw [h1] at hrun
      exact absurd (Prod.mk.inj hrun).2 (by simp)
    | ok r1 =>
      rw [h1] at hrun
      dsimp only at hrun
      cases h2 : fs.canonicalize cfg.env.previous_dir with
      | error e =>
        rw [h2] at hrun
        exact absurd (Prod.mk.inj hrun).2 (by simp)
      | ok r2 =>
        rw [h2] at hrun
        dsimp only at hrun
        have hcfg1 : cfg1 =
            { cfg with env := { cfg.env with input_dir := r1, previous_dir := r2 } } :=
          ((Prod.mk.inj hrun).1).symm
        subst hcfg1
        refine ⟨rfl, rfl, ?_⟩
        rw [validate_signing_eq,
          signingCheckError_congr fs
            { cfg with env := { cfg.env with input_dir := r1, previous_dir := r2 } } cfg rfl,
          hs]
        dsimp only
        unfold validate_paths
        dsimp only
        rw [hidem _ _ h1]
        dsimp only
        rw [hidem _ _ h2]

/-- A file-system environment where canonicalization is the identity, the
signing key is supplied by the environment variable, and every file
exists. -/
def fsIdent : FsEnv :=
  { resolveBinary := fun _ => none,
    updater_private_key_env := some "key",
    metadata := fun _ => .ok (),
    canonicalize := fun p => .ok p }

/-- C9 witness: under identity canonicalization, a successful path-checked
run is a fixed point: the second run reproduces the configuration. -/
theorem validate_canonicalize_idempotent_witness :
    fsIdent.canonicalize Config.defaultValue.env.input_dir =
      .ok Config.defaultValue.env.input_dir ∧
    fsIdent.canonicalize Config.defaultValue.env.previous_dir =
      .ok Config.defaultValue.env.previous_dir ∧
    validate fsIdent false true Config.defaultValue = (Config.defaultValue, .ok ()) :=
  validate_canonicalize_idempotent fsIdent Config.defaultValue Config.defaultValue
    (fun _ _ _ => rfl) (by decide)

/-! ## Loading a configuration with no recognized sections (C5) -/

/-- C5 counterexample: deserializing a document with no recognized sections
(here one unrecognized section `stuff`) yields `branch = ""`, not the
claimed `"stable"`: the missing `env` section is filled from the derived
`Default`, which ignores the serde field default `get_default_branch`. -/
theorem config_no_sections_branch_not_stable :
    (deserializeConfig (TomlVal.table [("stuff", TomlVal.int 1)])).map
      (fun c => c.env.branch) = some "" ∧
    ("" : String) ≠ "stable" := by
  constructor
  · rfl
  · decide

/-- C5 (amended): a document with no recognized sections deserializes to
exactly the derived all-defaults value `Config::default()`, whose branch is
the empty string — the `"stable"` field default applies only when the `env`
section itself is present with its `branch` key absent. -/
theorem config_no_sections_defaults (doc : List (String × TomlVal))
    (henv : doc.lookup "env" = none) (hprep : doc.lookup "prepare" = none)
    (hgen : doc.lookup "generate" = none) (hpkg : doc.lookup "package" = none)
    (hpost : doc.lookup "post" = none) (hobs : doc.lookup "obs_version" = none) :
    deserializeConfig (TomlVal.table doc) = some Config.defaultValue ∧
    Config.defaultValue.env.branch = "" ∧
    deserializeConfig (TomlVal.table [("env", TomlVal.table [])]) =
      some { Config.defaultValue with
        env := { Config.defaultValue.env with branch := "stable" } } := by
  refine ⟨?_, rfl, by rfl⟩
  unfold deserializeConfig deField
  dsimp only
  rw [henv, hprep, hgen, hpkg, hpost, hobs]
  rfl

/-- C5 witness: the amended claim instantiated at a concrete document whose
only section is unrecognized. -/
theorem config_no_sections_defaults_witness :
    deserializeConfig (TomlVal.table [("unknown_section", TomlVal.boolean true)]) =
      some Config.defaultValue ∧
    Config.defaultValue.env.branch = "" ∧
    deserializeConfig (TomlVal.table [("env", TomlVal.table [])]) =
      some { Config.defaultValue with
        env := { Config.defaultValue.env with branch := "stable" } } :=
  config_no_sections_defaults [("unknown_section", TomlVal.boolean true)]
    rfl rfl rfl rfl rfl rfl
